import Mathlib

/-!
Verification of the aerobulk C++ interface (src/include/aerobulk.hpp) against its
natural-language specification.  The repository ships only the header: the bodies of
check_sizes, lvap and the two model overloads are not under src/, so they are modelled
here from the specification's words (sections 4 and 6 of the spec), with doc comments
marking each modelled definition.  Real numbers (float64 in the interface) are embedded
as exact rationals; the enum class algorithm, whose tag values 0..4 appear in the header,
is embedded as an integer tag with a validity predicate.
-/

namespace Aerobulk

/-- Tag value of algorithm.OTHER from src/include/aerobulk.hpp. -/
def algorithm.OTHER : Int := 0

/-- Tag value of algorithm.COARE from src/include/aerobulk.hpp. -/
def algorithm.COARE : Int := 1

/-- Tag value of algorithm.COARE35 from src/include/aerobulk.hpp. -/
def algorithm.COARE35 : Int := 2

/-- Tag value of algorithm.NCAR from src/include/aerobulk.hpp. -/
def algorithm.NCAR : Int := 3

/-- Tag value of algorithm.ECMWF from src/include/aerobulk.hpp. -/
def algorithm.ECMWF : Int := 4

/-- An algorithm tag is recognized when it is one of the five enumerators of the
enum class algorithm of src/include/aerobulk.hpp (values 0..4). -/
def algorithmValid (a : Int) : Bool :=
  a == 0 || a == 1 || a == 2 || a == 3 || a == 4

/-- Modelled from the spec: the body of check_sizes (declared at src/include/aerobulk.hpp
line 25; the implementation is not under src/).  Spec section 6: compares the expected
count against every supplied length, returns status 0 when all match and a nonzero
status on any mismatch; which nonzero value is implementation-defined, here the number
of disagreeing lengths. -/
def check_sizes (count : Int) (lengths : List Int) : Int :=
  (lengths.countP (fun l => l != count) : Int)

/-- Modelled from the spec: the scalar latent-heat-of-vaporization relation of seawater
(spec section 4.3), a closed-form linear relation in sea-surface temperature (Kelvin),
applied to one sample; the declared lvap (src/include/aerobulk.hpp line 28) has no body
under src/. -/
def lvap_scalar (sst : ℚ) : ℚ :=
  2501000 - 2370 * (sst - 27315 / 100)

/-- Modelled from the spec: lvap (src/include/aerobulk.hpp line 28) maps the scalar
relation over the sea-surface-temperature sequence, one output per input,
order-preserving, no iteration (spec section 4.3). -/
def lvap (sst : List ℚ) : List ℚ :=
  sst.map lvap_scalar

theorem check_sizes_eq_zero_iff (count : Int) (lengths : List Int) :
    check_sizes count lengths = 0 ↔ ∀ l ∈ lengths, l = count := by
  unfold check_sizes
  rw [Int.natCast_eq_zero, List.countP_eq_zero]
  constructor
  · intro h l hl
    have := h l hl
    simpa using this
  · intro h l hl
    simpa using h l hl

/-- C1: check_sizes returns the success status 0 if and only if every supplied length
equals the expected count, and returns a nonzero status whenever at least one supplied
length differs from the expected count. -/
theorem check_sizes_success_iff_all_match (count : Int) (lengths : List Int) :
    (check_sizes count lengths = 0 ↔ ∀ l ∈ lengths, l = count) ∧
    (∀ l ∈ lengths, l ≠ count → check_sizes count lengths ≠ 0) := by
  refine ⟨check_sizes_eq_zero_iff count lengths, ?_⟩
  intro l hl hne h0
  exact hne ((check_sizes_eq_zero_iff count lengths).mp h0 l hl)

/-- Witness for C1: at expected count 3 with supplied lengths [3, 2], the differing
length 2 forces a nonzero status. -/
theorem check_sizes_success_iff_all_match_witness :
    check_sizes 3 [3, 2] ≠ 0 :=
  (check_sizes_success_iff_all_match 3 [3, 2]).2 2 (by decide) (by decide)

/-- One co-located sample of the meteorological batch (spec section 3): sea-surface
temperature, air temperature and specific humidity at height zt, wind components at
height zu, and sea-level pressure. -/
structure Sample where
  sst : ℚ
  t_zt : ℚ
  q_zt : ℚ
  U_zu : ℚ
  V_zu : ℚ
  slp : ℚ
deriving DecidableEq

/-- Per-sample solver state: the transfer coefficients for momentum, heat and moisture
and the current flux estimates (spec section 4.4). -/
structure SolveState where
  Cd : ℚ
  Ch : ℚ
  Ce : ℚ
  QH : ℚ
  QL : ℚ
  Tau_x : ℚ
  Tau_y : ℚ
deriving DecidableEq

/-- Squared scalar wind speed of a sample, from the two wind components. -/
def windSq (s : Sample) : ℚ :=
  s.U_zu * s.U_zu + s.V_zu * s.V_zu

/-- Modelled from the spec: the neutral-stability roughness length of the closure
selected by the algorithm variant (spec section 4.4 step 1).  Spec section 9 leaves the
exact per-variant formulas open; a representative closed form distinguishing the
variants is used. -/
def roughnessLength (algo : Int) : ℚ :=
  (algo + 1) / 10000

/-- Modelled from the spec: saturation specific humidity at the sea surface, a
representative closed form in sea-surface temperature and pressure used by the QL
humidity difference (spec section 4.4 step 2c; exact formula left open by section 9). -/
def qsatSurface (s : Sample) : ℚ :=
  s.sst * s.slp / 100000000

/-- Modelled from the spec: step 2c of the solver, recomputing the flux estimates from
a coefficient set — QH from the temperature difference and the heat transfer
coefficient, QL from the humidity difference, heat of vaporization and moisture
transfer coefficient, Tau from wind and the momentum transfer coefficient. -/
def fluxesFrom (s : Sample) (Cd Ch Ce : ℚ) : SolveState :=
  { Cd := Cd, Ch := Ch, Ce := Ce,
    QH := Ch * (s.sst - s.t_zt) * windSq s,
    QL := Ce * lvap_scalar s.sst * (qsatSurface s - s.q_zt) * windSq s,
    Tau_x := Cd * s.U_zu * windSq s,
    Tau_y := Cd * s.V_zu * windSq s }

/-- Modelled from the spec: step 1 of the solver — a first-guess transfer-coefficient
set from the neutral-stability roughness length of the selected closure, with the
corresponding initial flux estimates. -/
def initState (algo : Int) (zu : ℚ) (s : Sample) : SolveState :=
  let c := roughnessLength algo * zu / (1 + zu * zu)
  fluxesFrom s c c c

/-- Modelled from the spec: step 2a — the Monin–Obukhov stability parameter recomputed
from the current flux estimate (representative closed form, section 9). -/
def stabilityParam (zu : ℚ) (s : Sample) (st : SolveState) : ℚ :=
  zu * (st.QH + st.QL) / (1 + windSq s)

/-- Modelled from the spec: step 2b — the variant-specific stability-correction factor
applied to the transfer coefficients (representative closed form, section 9). -/
def stabilityCorrection (algo : Int) (x : ℚ) : ℚ :=
  1 + (algo + 1) * x / 100

/-- Modelled from the spec: one similarity-theory refinement pass (spec section 4.4
step 2): (a) recompute the stability parameter from the current flux estimate,
(b) apply the variant-specific stability correction to the transfer coefficients,
(c) recompute the flux estimates from the updated coefficients. -/
def stepSample (algo : Int) (zt zu : ℚ) (s : Sample) (st : SolveState) : SolveState :=
  let zeta := stabilityParam zu s st
  let corr := stabilityCorrection algo (zeta * (zu - zt))
  fluxesFrom s (st.Cd * corr) (st.Ch * corr) (st.Ce * corr)

/-- Modelled from the spec: the per-sample solve — initialize from the neutral closure
and run the given number of refinement passes, a fixed budget with no adaptive
convergence check (spec section 4.4 steps 1 and 2). -/
def solveSample (algo : Int) (zt zu : ℚ) (s : Sample) : Nat → SolveState
  | 0 => initState algo zu s
  | n + 1 => stepSample algo zt zu s (solveSample algo zt zu s n)

/-- Modelled from the spec: step 3 — after the final pass, solve the surface energy
balance (net radiation minus QH minus QL equals the skin adjustment) for the corrected
skin temperature (representative closed form, section 9). -/
def skinTemp (s : Sample) (rad_sw rad_lw : ℚ) (st : SolveState) : ℚ :=
  s.sst + (rad_sw + rad_lw - st.QH - st.QL) / 1000

/-- The caller-visible arrays of the radiative model overload
(src/include/aerobulk.hpp lines 31..35): the const input sequences and the output
buffers the call may write. -/
structure StateRad where
  sst : List ℚ
  t_zt : List ℚ
  q_zt : List ℚ
  U_zu : List ℚ
  V_zu : List ℚ
  slp : List ℚ
  rad_sw : List ℚ
  rad_lw : List ℚ
  QL : List ℚ
  QH : List ℚ
  Tau_x : List ℚ
  Tau_y : List ℚ
  T_s : List ℚ
deriving DecidableEq

/-- The caller-visible arrays of the non-radiative model overload
(src/include/aerobulk.hpp lines 38..41). -/
structure StateNoRad where
  sst : List ℚ
  t_zt : List ℚ
  q_zt : List ℚ
  U_zu : List ℚ
  V_zu : List ℚ
  slp : List ℚ
  QL : List ℚ
  QH : List ℚ
  Tau_x : List ℚ
  Tau_y : List ℚ
deriving DecidableEq

/-- Sample i of the radiative batch, read from the input sequences. -/
def StateRad.sampleAt (st : StateRad) (i : Nat) : Sample :=
  { sst := st.sst.getD i 0, t_zt := st.t_zt.getD i 0, q_zt := st.q_zt.getD i 0,
    U_zu := st.U_zu.getD i 0, V_zu := st.V_zu.getD i 0, slp := st.slp.getD i 0 }

/-- Sample i of the non-radiative batch, read from the input sequences. -/
def StateNoRad.sampleAt (st : StateNoRad) (i : Nat) : Sample :=
  { sst := st.sst.getD i 0, t_zt := st.t_zt.getD i 0, q_zt := st.q_zt.getD i 0,
    U_zu := st.U_zu.getD i 0, V_zu := st.V_zu.getD i 0, slp := st.slp.getD i 0 }

/-- Lengths of the radiative overload's non-reference input sequences, handed to the
check_sizes funnel point (spec section 4.2). -/
def StateRad.inputLengths (st : StateRad) : List Int :=
  [(st.t_zt.length : Int), (st.q_zt.length : Int), (st.U_zu.length : Int),
   (st.V_zu.length : Int), (st.slp.length : Int), (st.rad_sw.length : Int),
   (st.rad_lw.length : Int)]

/-- Lengths of the non-radiative overload's non-reference input sequences. -/
def StateNoRad.inputLengths (st : StateNoRad) : List Int :=
  [(st.t_zt.length : Int), (st.q_zt.length : Int), (st.U_zu.length : Int),
   (st.V_zu.length : Int), (st.slp.length : Int)]

/-- Success condition of the radiative overload: the check_sizes funnel point accepts
the input lengths and the algorithm tag is recognized (spec sections 4.2 and 7). -/
def radOK (algo : Int) (st : StateRad) : Prop :=
  check_sizes (st.sst.length : Int) st.inputLengths = 0 ∧ algorithmValid algo = true

/-- Success condition of the non-radiative overload. -/
def noradOK (algo : Int) (st : StateNoRad) : Prop :=
  check_sizes (st.sst.length : Int) st.inputLengths = 0 ∧ algorithmValid algo = true

instance (algo : Int) (st : StateRad) : Decidable (radOK algo st) := by
  unfold radOK; infer_instance

instance (algo : Int) (st : StateNoRad) : Decidable (noradOK algo st) := by
  unfold noradOK; infer_instance

/-- The state the radiative overload leaves on success: each output buffer overwritten
with the per-sample results at the input sample's index, each sample solved
independently with the fixed iteration budget, T_s from the surface energy balance
(spec section 4.4 steps 3 and 4); the input sequences are untouched. -/
def radResult (algo : Int) (zt zu : ℚ) (st : StateRad) (Niter : Nat) : StateRad :=
  let N := st.sst.length
  { st with
    QL := (List.range N).map fun i => (solveSample algo zt zu (st.sampleAt i) Niter).QL,
    QH := (List.range N).map fun i => (solveSample algo zt zu (st.sampleAt i) Niter).QH,
    Tau_x := (List.range N).map fun i =>
      (solveSample algo zt zu (st.sampleAt i) Niter).Tau_x,
    Tau_y := (List.range N).map fun i =>
      (solveSample algo zt zu (st.sampleAt i) Niter).Tau_y,
    T_s := (List.range N).map fun i =>
      skinTemp (st.sampleAt i) (st.rad_sw.getD i 0) (st.rad_lw.getD i 0)
        (solveSample algo zt zu (st.sampleAt i) Niter) }

/-- The state the non-radiative overload leaves on success. -/
def noradResult (algo : Int) (zt zu : ℚ) (st : StateNoRad) (Niter : Nat) : StateNoRad :=
  let N := st.sst.length
  { st with
    QL := (List.range N).map fun i => (solveSample algo zt zu (st.sampleAt i) Niter).QL,
    QH := (List.range N).map fun i => (solveSample algo zt zu (st.sampleAt i) Niter).QH,
    Tau_x := (List.range N).map fun i =>
      (solveSample algo zt zu (st.sampleAt i) Niter).Tau_x,
    Tau_y := (List.range N).map fun i =>
      (solveSample algo zt zu (st.sampleAt i) Niter).Tau_y }

/-- Modelled from the spec: the radiative model overload (declared at
src/include/aerobulk.hpp lines 31..35; the body is not under src/).  The shape check
and the variant check run before any numerical work; on failure the call aborts with
no output (none, leaving every caller buffer as it was).  On success the call returns
the caller-visible arrays with the outputs overwritten (spec sections 4.4, 7). -/
def model_rad (algo : Int) (zt zu : ℚ) (st : StateRad) (Niter : Nat) :
    Option StateRad :=
  if radOK algo st then some (radResult algo zt zu st Niter) else none

/-- Modelled from the spec: the non-radiative model overload (declared at
src/include/aerobulk.hpp lines 38..41; the body is not under src/), same contract
without the radiative inputs and the T_s output. -/
def model_norad (algo : Int) (zt zu : ℚ) (st : StateNoRad) (Niter : Nat) :
    Option StateNoRad :=
  if noradOK algo st then some (noradResult algo zt zu st Niter) else none

/-- The radiative overload as called with Niter omitted: the header declares the
default argument Niter = 5 (src/include/aerobulk.hpp line 35). -/
def model_rad_default (algo : Int) (zt zu : ℚ) (st : StateRad) : Option StateRad :=
  model_rad algo zt zu st 5

/-- The non-radiative overload as called with Niter omitted: the header declares the
default argument Niter = 5 (src/include/aerobulk.hpp line 41). -/
def model_norad_default (algo : Int) (zt zu : ℚ) (st : StateNoRad) :
    Option StateNoRad :=
  model_norad algo zt zu st 5

theorem getD_range_map {α : Type} (f : Nat → α) (d : α) {n i : Nat} (h : i < n) :
    ((List.range n).map f).getD i d = f i := by
  rw [List.getD_eq_getElem?_getD, List.getElem?_map, List.getElem?_range h]
  rfl

theorem model_rad_eq_some {algo : Int} {zt zu : ℚ} {st : StateRad} {Niter : Nat}
    {out : StateRad} (h : model_rad algo zt zu st Niter = some out) :
    radOK algo st ∧ out = radResult algo zt zu st Niter := by
  unfold model_rad at h
  split at h
  · exact ⟨by assumption, (Option.some.inj h).symm⟩
  · cases h

theorem model_norad_eq_some {algo : Int} {zt zu : ℚ} {st : StateNoRad} {Niter : Nat}
    {out : StateNoRad} (h : model_norad algo zt zu st Niter = some out) :
    noradOK algo st ∧ out = noradResult algo zt zu st Niter := by
  unfold model_norad at h
  split at h
  · exact ⟨by assumption, (Option.some.inj h).symm⟩
  · cases h

theorem model_rad_of_ok {algo : Int} (zt zu : ℚ) {st : StateRad} (Niter : Nat)
    (h : radOK algo st) :
    model_rad algo zt zu st Niter = some (radResult algo zt zu st Niter) :=
  if_pos h

theorem model_norad_of_ok {algo : Int} (zt zu : ℚ) {st : StateNoRad} (Niter : Nat)
    (h : noradOK algo st) :
    model_norad algo zt zu st Niter = some (noradResult algo zt zu st Niter) :=
  if_pos h

/-- C2: the model solver performs exactly Niter similarity-theory refinement passes —
the budget-n solve is the n-fold iterate of one refinement pass applied to the neutral
initialization, a fixed budget with no adaptive convergence check — and when the
caller omits Niter, both the radiative and the non-radiative overloads run with the
default budget 5. -/
theorem model_fixed_iteration_budget (algo : Int) (zt zu : ℚ) (s : Sample) (n : Nat)
    (stR : StateRad) (stN : StateNoRad) :
    solveSample algo zt zu s n =
      (stepSample algo zt zu s)^[n] (initState algo zu s) ∧
    model_rad_default algo zt zu stR = model_rad algo zt zu stR 5 ∧
    model_norad_default algo zt zu stN = model_norad algo zt zu stN 5 := by
  refine ⟨?_, rfl, rfl⟩
  induction n with
  | zero => rfl
  | succ k ih =>
    rw [Function.iterate_succ_apply']
    simpa [solveSample] using congrArg (stepSample algo zt zu s) ih

/-- A radiative batch of one all-zero sample, with stale values in the output
buffers. -/
def radZero1 : StateRad :=
  { sst := [0], t_zt := [0], q_zt := [0], U_zu := [0], V_zu := [0], slp := [0],
    rad_sw := [0], rad_lw := [0],
    QL := [9], QH := [9], Tau_x := [9], Tau_y := [9], T_s := [9] }

/-- The state the radiative overload leaves on the all-zero one-sample batch: every
flux is zero (zero wind kills every flux term) and the skin temperature correction is
zero. -/
def radZero1Out : StateRad :=
  { radZero1 with QL := [0], QH := [0], Tau_x := [0], Tau_y := [0], T_s := [0] }

/-- A non-radiative batch of one all-zero sample, with stale values in the output
buffers. -/
def noradZero1 : StateNoRad :=
  { sst := [0], t_zt := [0], q_zt := [0], U_zu := [0], V_zu := [0], slp := [0],
    QL := [9], QH := [9], Tau_x := [9], Tau_y := [9] }

/-- The state the non-radiative overload leaves on the all-zero one-sample batch. -/
def noradZero1Out : StateNoRad :=
  { noradZero1 with QL := [0], QH := [0], Tau_x := [0], Tau_y := [0] }

/-- C3: for every batch accepted by either overload, each output sequence (QL, QH,
Tau_x, Tau_y, and T_s in the radiative variant) has length exactly N, the length of
the input sequences, and the entry at index i is the per-sample result for input
sample i — output ordering mirrors input ordering. -/
theorem model_output_shape (algo : Int) (zt zu : ℚ) (Niter : Nat) :
    (∀ st out : StateRad, model_rad algo zt zu st Niter = some out →
      (out.QL.length = st.sst.length ∧ out.QH.length = st.sst.length ∧
       out.Tau_x.length = st.sst.length ∧ out.Tau_y.length = st.sst.length ∧
       out.T_s.length = st.sst.length) ∧
      ∀ i, i < st.sst.length →
        out.QL.getD i 0 = (solveSample algo zt zu (st.sampleAt i) Niter).QL ∧
        out.QH.getD i 0 = (solveSample algo zt zu (st.sampleAt i) Niter).QH ∧
        out.Tau_x.getD i 0 = (solveSample algo zt zu (st.sampleAt i) Niter).Tau_x ∧
        out.Tau_y.getD i 0 = (solveSample algo zt zu (st.sampleAt i) Niter).Tau_y ∧
        out.T_s.getD i 0 =
          skinTemp (st.sampleAt i) (st.rad_sw.getD i 0) (st.rad_lw.getD i 0)
            (solveSample algo zt zu (st.sampleAt i) Niter)) ∧
    (∀ st out : StateNoRad, model_norad algo zt zu st Niter = some out →
      (out.QL.length = st.sst.length ∧ out.QH.length = st.sst.length ∧
       out.Tau_x.length = st.sst.length ∧ out.Tau_y.length = st.sst.length) ∧
      ∀ i, i < st.sst.length →
        out.QL.getD i 0 = (solveSample algo zt zu (st.sampleAt i) Niter).QL ∧
        out.QH.getD i 0 = (solveSample algo zt zu (st.sampleAt i) Niter).QH ∧
        out.Tau_x.getD i 0 = (solveSample algo zt zu (st.sampleAt i) Niter).Tau_x ∧
        out.Tau_y.getD i 0 = (solveSample algo zt zu (st.sampleAt i) Niter).Tau_y) := by
  constructor
  · intro st out h
    obtain ⟨-, rfl⟩ := model_rad_eq_some h
    constructor
    · refine ⟨?_, ?_, ?_, ?_, ?_⟩ <;> simp [radResult]
    · intro i hi
      refine ⟨?_, ?_, ?_, ?_, ?_⟩ <;>
        (simp only [radResult]; exact getD_range_map _ _ hi)
  · intro st out h
    obtain ⟨-, rfl⟩ := model_norad_eq_some h
    constructor
    · refine ⟨?_, ?_, ?_, ?_⟩ <;> simp [noradResult]
    · intro i hi
      refine ⟨?_, ?_, ?_, ?_⟩ <;>
        (simp only [noradResult]; exact getD_range_map _ _ hi)

theorem model_rad_zero1 :
    model_rad algorithm.COARE 2 10 radZero1 5 = some radZero1Out := by
  rw [model_rad_of_ok 2 10 5 (by decide)]
  simp [radResult, radZero1, radZero1Out, StateRad.sampleAt, solveSample, stepSample,
    initState, fluxesFrom, windSq, stabilityParam, stabilityCorrection, qsatSurface,
    lvap_scalar, roughnessLength, skinTemp, List.range_succ]

theorem model_norad_zero1 :
    model_norad algorithm.COARE 2 10 noradZero1 5 = some noradZero1Out := by
  rw [model_norad_of_ok 2 10 5 (by decide)]
  simp [noradResult, noradZero1, noradZero1Out, StateNoRad.sampleAt, solveSample,
    stepSample, initState, fluxesFrom, windSq, stabilityParam, stabilityCorrection,
    qsatSurface, lvap_scalar, roughnessLength, List.range_succ]

/-- Witness for C3: on the one-sample all-zero batches both overloads produce output
sequences of length 1 mirroring the input index. -/
theorem model_output_shape_witness :
    radZero1Out.QL.length = radZero1.sst.length ∧
    noradZero1Out.QL.length = noradZero1.sst.length :=
  ⟨(((model_output_shape algorithm.COARE 2 10 5).1 radZero1 radZero1Out
      model_rad_zero1).1).1,
   (((model_output_shape algorithm.COARE 2 10 5).2 noradZero1 noradZero1Out
      model_norad_zero1).1).1⟩

/-- C4: model is deterministic — two calls with identical inputs (same variant, heights
zt and zu, caller arrays and Niter) produce identical outputs, in both the radiative
and the non-radiative call shapes; the embedded call is a function of its arguments
alone, with no hidden state. -/
theorem model_deterministic (a1 a2 : Int) (zt1 zt2 zu1 zu2 : ℚ) (n1 n2 : Nat)
    (st1 st2 : StateRad) (sn1 sn2 : StateNoRad)
    (ha : a1 = a2) (hzt : zt1 = zt2) (hzu : zu1 = zu2) (hn : n1 = n2)
    (hst : st1 = st2) (hsn : sn1 = sn2) :
    model_rad a1 zt1 zu1 st1 n1 = model_rad a2 zt2 zu2 st2 n2 ∧
    model_norad a1 zt1 zu1 sn1 n1 = model_norad a2 zt2 zu2 sn2 n2 := by
  subst ha hzt hzu hn hst hsn
  exact ⟨rfl, rfl⟩

/-- Witness for C4: two identical calls on the one-sample zero batch agree. -/
theorem model_deterministic_witness :
    model_rad 1 2 10 radZero1 5 = model_rad 1 2 10 radZero1 5 ∧
    model_norad 1 2 10 noradZero1 5 = model_norad 1 2 10 noradZero1 5 :=
  model_deterministic 1 1 2 2 10 10 5 5 radZero1 radZero1 noradZero1 noradZero1
    rfl rfl rfl rfl rfl rfl

/-- A radiative batch of two all-zero samples, with stale values in the output
buffers. -/
def radZero2 : StateRad :=
  { sst := [0, 0], t_zt := [0, 0], q_zt := [0, 0], U_zu := [0, 0], V_zu := [0, 0],
    slp := [0, 0], rad_sw := [0, 0], rad_lw := [0, 0],
    QL := [9, 9], QH := [9, 9], Tau_x := [9, 9], Tau_y := [9, 9], T_s := [9, 9] }

/-- The state the radiative overload leaves on the two-sample all-zero batch. -/
def radZero2Out : StateRad :=
  { radZero2 with
    QL := [0, 0], QH := [0, 0], Tau_x := [0, 0], Tau_y := [0, 0], T_s := [0, 0] }

/-- The two-sample zero batch with only sample 0's sea-surface temperature changed. -/
def radOne2 : StateRad :=
  { radZero2 with sst := [1, 0] }

/-- The state the radiative overload leaves on radOne2: zero wind still kills every
flux, and the skin temperature mirrors the input sst. -/
def radOne2Out : StateRad :=
  { radOne2 with
    QL := [0, 0], QH := [0, 0], Tau_x := [0, 0], Tau_y := [0, 0], T_s := [1, 0] }

theorem model_rad_zero2 :
    model_rad algorithm.COARE 2 10 radZero2 5 = some radZero2Out := by
  rw [model_rad_of_ok 2 10 5 (by decide)]
  simp [radResult, radZero2, radZero2Out, StateRad.sampleAt, solveSample, stepSample,
    initState, fluxesFrom, windSq, stabilityParam, stabilityCorrection, qsatSurface,
    lvap_scalar, roughnessLength, skinTemp, List.range_succ]

theorem model_rad_one2 :
    model_rad algorithm.COARE 2 10 radOne2 5 = some radOne2Out := by
  rw [model_rad_of_ok 2 10 5 (by decide)]
  simp [radResult, radZero2, radOne2, radOne2Out, StateRad.sampleAt, solveSample,
    stepSample, initState, fluxesFrom, windSq, stabilityParam, stabilityCorrection,
    qsatSurface, lvap_scalar, roughnessLength, skinTemp, List.range_succ]

/-- C5: samples are computed independently: if two calls differ only in the inputs of
sample i (the other samples agree, and the batches have the same length), then every
output sequence agrees at every index other than i, in both call shapes. -/
theorem model_per_sample_independence (algo : Int) (zt zu : ℚ) (Niter : Nat)
    (i : Nat) :
    (∀ st1 st2 out1 out2 : StateRad,
      st1.sst.length = st2.sst.length →
      (∀ j, j ≠ i → st1.sampleAt j = st2.sampleAt j ∧
        st1.rad_sw.getD j 0 = st2.rad_sw.getD j 0 ∧
        st1.rad_lw.getD j 0 = st2.rad_lw.getD j 0) →
      model_rad algo zt zu st1 Niter = some out1 →
      model_rad algo zt zu st2 Niter = some out2 →
      ∀ j, j < st1.sst.length → j ≠ i →
        out1.QL.getD j 0 = out2.QL.getD j 0 ∧
        out1.QH.getD j 0 = out2.QH.getD j 0 ∧
        out1.Tau_x.getD j 0 = out2.Tau_x.getD j 0 ∧
        out1.Tau_y.getD j 0 = out2.Tau_y.getD j 0 ∧
        out1.T_s.getD j 0 = out2.T_s.getD j 0) ∧
    (∀ st1 st2 out1 out2 : StateNoRad,
      st1.sst.length = st2.sst.length →
      (∀ j, j ≠ i → st1.sampleAt j = st2.sampleAt j) →
      model_norad algo zt zu st1 Niter = some out1 →
      model_norad algo zt zu st2 Niter = some out2 →
      ∀ j, j < st1.sst.length → j ≠ i →
        out1.QL.getD j 0 = out2.QL.getD j 0 ∧
        out1.QH.getD j 0 = out2.QH.getD j 0 ∧
        out1.Tau_x.getD j 0 = out2.Tau_x.getD j 0 ∧
        out1.Tau_y.getD j 0 = out2.Tau_y.getD j 0) := by
  constructor
  · intro st1 st2 out1 out2 hlen hagree h1 h2 j hj hji
    obtain ⟨-, rfl⟩ := model_rad_eq_some h1
    obtain ⟨-, rfl⟩ := model_rad_eq_some h2
    have hj2 : j < st2.sst.length := hlen ▸ hj
    obtain ⟨hs, hsw, hlw⟩ := hagree j hji
    refine ⟨?_, ?_, ?_, ?_, ?_⟩ <;>
      simp only [radResult, getD_range_map _ _ hj, getD_range_map _ _ hj2, hs,
        hsw, hlw]
  · intro st1 st2 out1 out2 hlen hagree h1 h2 j hj hji
    obtain ⟨-, rfl⟩ := model_norad_eq_some h1
    obtain ⟨-, rfl⟩ := model_norad_eq_some h2
    have hj2 : j < st2.sst.length := hlen ▸ hj
    have hs := hagree j hji
    refine ⟨?_, ?_, ?_, ?_⟩ <;>
      (simp only [noradResult]
       rw [getD_range_map _ _ hj, getD_range_map _ _ hj2, hs])

/-- Witness for C5: the two-sample batches radOne2 and radZero2 differ only in sample
0, and every output agrees at index 1. -/
theorem model_per_sample_independence_witness :
    radOne2Out.QL.getD 1 0 = radZero2Out.QL.getD 1 0 ∧
    radOne2Out.QH.getD 1 0 = radZero2Out.QH.getD 1 0 ∧
    radOne2Out.Tau_x.getD 1 0 = radZero2Out.Tau_x.getD 1 0 ∧
    radOne2Out.Tau_y.getD 1 0 = radZero2Out.Tau_y.getD 1 0 ∧
    radOne2Out.T_s.getD 1 0 = radZero2Out.T_s.getD 1 0 :=
  (model_per_sample_independence algorithm.COARE 2 10 5 0).1 radOne2 radZero2
    radOne2Out radZero2Out rfl
    (by
      intro j hj
      match j with
      | 0 => exact absurd rfl hj
      | n + 1 => exact ⟨rfl, rfl, rfl⟩)
    model_rad_one2 model_rad_zero2 1 (by decide) (by decide)

/-- The one-sample zero batch with a mismatched (empty) air-temperature sequence. -/
def radBad : StateRad :=
  { radZero1 with t_zt := [] }

/-- C6: a call whose input sequence lengths disagree, or whose algorithm tag lies
outside the enumerated set OTHER, COARE, COARE35, NCAR, ECMWF, fails before any
numerical work and produces no output: both overloads return none, so no element of
any output buffer is written — the whole call aborts with no partial result. -/
theorem model_aborts_on_bad_call (algo : Int) (zt zu : ℚ) (Niter : Nat)
    (st : StateRad) (stN : StateNoRad) :
    ((∃ l ∈ st.inputLengths, l ≠ (st.sst.length : Int)) ∨ algorithmValid algo = false →
      model_rad algo zt zu st Niter = none) ∧
    ((∃ l ∈ stN.inputLengths, l ≠ (stN.sst.length : Int)) ∨
        algorithmValid algo = false →
      model_norad algo zt zu stN Niter = none) := by
  constructor
  · intro h
    unfold model_rad
    apply if_neg
    rintro ⟨hcs, hv⟩
    rcases h with ⟨l, hl, hne⟩ | hf
    · exact hne ((check_sizes_eq_zero_iff _ _).mp hcs l hl)
    · rw [hv] at hf
      cases hf
  · intro h
    unfold model_norad
    apply if_neg
    rintro ⟨hcs, hv⟩
    rcases h with ⟨l, hl, hne⟩ | hf
    · exact hne ((check_sizes_eq_zero_iff _ _).mp hcs l hl)
    · rw [hv] at hf
      cases hf

/-- Witness for C6: a mismatched radiative batch (t_zt empty against one sample) and
an unrecognized tag 7 on the non-radiative batch both abort with no output. -/
theorem model_aborts_on_bad_call_witness :
    model_rad 1 2 10 radBad 5 = none ∧ model_norad 7 2 10 noradZero1 5 = none :=
  ⟨(model_aborts_on_bad_call 1 2 10 5 radBad noradZero1).1
      (Or.inl ⟨0, by decide, by decide⟩),
   (model_aborts_on_bad_call 7 2 10 5 radBad noradZero1).2 (Or.inr (by decide))⟩

/-- C7: numerically degenerate per-sample values are never treated as errors: lvap is
total and length-preserving on every input sequence, and whenever the shape and
variant checks pass — conditions on lengths and the tag alone, never on the numeric
values — both overloads succeed and populate every output index, whatever the sample
values (zero wind, negative humidity or pressure included). -/
theorem degenerate_values_never_error (algo : Int) (zt zu : ℚ) (Niter : Nat)
    (st : StateRad) (stN : StateNoRad) (h : radOK algo st) (hN : noradOK algo stN) :
    (∀ l : List ℚ, (lvap l).length = l.length) ∧
    (model_rad algo zt zu st Niter = some (radResult algo zt zu st Niter) ∧
      (radResult algo zt zu st Niter).QL.length = st.sst.length ∧
      (radResult algo zt zu st Niter).QH.length = st.sst.length ∧
      (radResult algo zt zu st Niter).Tau_x.length = st.sst.length ∧
      (radResult algo zt zu st Niter).Tau_y.length = st.sst.length ∧
      (radResult algo zt zu st Niter).T_s.length = st.sst.length) ∧
    (model_norad algo zt zu stN Niter = some (noradResult algo zt zu stN Niter) ∧
      (noradResult algo zt zu stN Niter).QL.length = stN.sst.length ∧
      (noradResult algo zt zu stN Niter).QH.length = stN.sst.length ∧
      (noradResult algo zt zu stN Niter).Tau_x.length = stN.sst.length ∧
      (noradResult algo zt zu stN Niter).Tau_y.length = stN.sst.length) := by
  refine ⟨fun l => by simp [lvap], ⟨model_rad_of_ok zt zu Niter h, ?_⟩,
    ⟨model_norad_of_ok zt zu Niter hN, ?_⟩⟩
  · refine ⟨?_, ?_, ?_, ?_, ?_⟩ <;> simp [radResult]
  · refine ⟨?_, ?_, ?_, ?_⟩ <;> simp [noradResult]

/-- A one-sample radiative batch of physically degenerate values: zero wind, negative
humidity, negative pressure, negative radiation. -/
def radDegen : StateRad :=
  { sst := [300], t_zt := [250], q_zt := [-1], U_zu := [0], V_zu := [0],
    slp := [-101300], rad_sw := [-200], rad_lw := [-50],
    QL := [9], QH := [9], Tau_x := [9], Tau_y := [9], T_s := [9] }

/-- A one-sample non-radiative batch of physically degenerate values. -/
def noradDegen : StateNoRad :=
  { sst := [300], t_zt := [250], q_zt := [-1], U_zu := [0], V_zu := [0],
    slp := [-101300], QL := [9], QH := [9], Tau_x := [9], Tau_y := [9] }

/-- Witness for C7: on degenerate one-sample batches both overloads still succeed. -/
theorem degenerate_values_never_error_witness :
    model_rad 3 2 10 radDegen 5 = some (radResult 3 2 10 radDegen 5) ∧
    model_norad 3 2 10 noradDegen 5 = some (noradResult 3 2 10 noradDegen 5) :=
  ⟨((degenerate_values_never_error 3 2 10 5 radDegen noradDegen (by decide)
      (by decide)).2).1.1,
   ((degenerate_values_never_error 3 2 10 5 radDegen noradDegen (by decide)
      (by decide)).2).2.1⟩

theorem getD_map_of_lt {α β : Type} (f : α → β) (l : List α) (d : β) (d2 : α)
    {i : Nat} (h : i < l.length) :
    (l.map f).getD i d = f (l.getD i d2) := by
  rw [List.getD_eq_getElem?_getD, List.getElem?_map, List.getElem?_eq_getElem h,
    List.getD_eq_getElem?_getD, List.getElem?_eq_getElem h]
  rfl

theorem lvap_cons (a : ℚ) (l : List ℚ) : lvap (a :: l) = lvap_scalar a :: lvap l :=
  rfl

theorem lvap_getD (l : List ℚ) {i : Nat} (h : i < l.length) :
    (lvap l).getD i 0 = lvap_scalar (l.getD i 0) :=
  getD_map_of_lt _ _ _ _ h

/-- C8: lvap is element-wise and order-preserving: for every input sequence it returns
a sequence of the same length whose i-th element depends only on the i-th input, and
reindexing the input by any sequence of valid indices — permutations included —
reindexes the output identically. -/
theorem lvap_elementwise (l : List ℚ) :
    (lvap l).length = l.length ∧
    (∀ i, i < l.length → (lvap l).getD i 0 = lvap_scalar (l.getD i 0)) ∧
    (∀ il : List Nat, (∀ i ∈ il, i < l.length) →
      lvap (il.map fun i => l.getD i 0) = il.map fun i => (lvap l).getD i 0) := by
  refine ⟨by simp [lvap], fun i hi => getD_map_of_lt _ _ _ _ hi, fun il his => ?_⟩
  induction il with
  | nil => rfl
  | cons a as ih =>
    have ha : a < l.length := his a (List.mem_cons_self a as)
    have htl : ∀ i ∈ as, i < l.length := fun i hi => his i (List.mem_cons_of_mem a hi)
    rw [List.map_cons, lvap_cons, ih htl, List.map_cons, lvap_getD l ha]

/-- Witness for C8: reindexing the two-element sequence by the swap [1, 0] commutes
with lvap. -/
theorem lvap_elementwise_witness :
    lvap (([1, 0] : List Nat).map fun i => ([300, 280] : List ℚ).getD i 0) =
      ([1, 0] : List Nat).map fun i => (lvap [300, 280]).getD i 0 :=
  (lvap_elementwise [300, 280]).2.2 [1, 0] (by decide)

/-- C9: on the empty batch every operation succeeds and returns empty sequences:
check_sizes accepts the expected count 0 against any number of supplied lengths 0,
lvap maps the empty sequence to the empty sequence, and both model overloads accept
any recognized variant on all-empty input sequences and leave every output empty,
whatever stale contents the output buffers held. -/
theorem empty_batch_trivial (k : Nat) (algo : Int) (zt zu : ℚ) (Niter : Nat)
    (b1 b2 b3 b4 b5 c1 c2 c3 c4 : List ℚ) (hv : algorithmValid algo = true) :
    check_sizes 0 (List.replicate k 0) = 0 ∧
    lvap [] = [] ∧
    model_rad algo zt zu
      { sst := [], t_zt := [], q_zt := [], U_zu := [], V_zu := [], slp := [],
        rad_sw := [], rad_lw := [],
        QL := b1, QH := b2, Tau_x := b3, Tau_y := b4, T_s := b5 } Niter =
      some
        { sst := [], t_zt := [], q_zt := [], U_zu := [], V_zu := [], slp := [],
          rad_sw := [], rad_lw := [],
          QL := [], QH := [], Tau_x := [], Tau_y := [], T_s := [] } ∧
    model_norad algo zt zu
      { sst := [], t_zt := [], q_zt := [], U_zu := [], V_zu := [], slp := [],
        QL := c1, QH := c2, Tau_x := c3, Tau_y := c4 } Niter =
      some
        { sst := [], t_zt := [], q_zt := [], U_zu := [], V_zu := [], slp := [],
          QL := [], QH := [], Tau_x := [], Tau_y := [] } := by
  refine ⟨?_, rfl, ?_, ?_⟩
  · rw [check_sizes_eq_zero_iff]
    intro l hl
    exact (List.eq_of_mem_replicate hl)
  · rw [model_rad_of_ok zt zu Niter ⟨by rfl, hv⟩]
    rfl
  · rw [model_norad_of_ok zt zu Niter ⟨by rfl, hv⟩]
    rfl

/-- Witness for C9: three zero lengths against expected count 0 pass check_sizes, with
the NCAR variant and stale singleton output buffers. -/
theorem empty_batch_trivial_witness :
    check_sizes 0 (List.replicate 3 0) = 0 :=
  (empty_batch_trivial 3 algorithm.NCAR 2 10 5 [9] [9] [9] [9] [9] [9] [9] [9] [9]
    (by decide)).1

/-- C10: neither overload modifies its input sequences: every successful call returns
the caller-visible arrays with sst, t_zt, q_zt, U_zu, V_zu, slp — and rad_sw, rad_lw
in the radiative shape — exactly as supplied; only the designated output buffers (QL,
QH, Tau_x, Tau_y, and T_s in the radiative shape) are rewritten, and a failed call
returns none, writing nothing. -/
theorem model_inputs_unmodified (algo : Int) (zt zu : ℚ) (Niter : Nat) :
    (∀ st out : StateRad, model_rad algo zt zu st Niter = some out →
      out.sst = st.sst ∧ out.t_zt = st.t_zt ∧ out.q_zt = st.q_zt ∧
      out.U_zu = st.U_zu ∧ out.V_zu = st.V_zu ∧ out.slp = st.slp ∧
      out.rad_sw = st.rad_sw ∧ out.rad_lw = st.rad_lw) ∧
    (∀ st out : StateNoRad, model_norad algo zt zu st Niter = some out →
      out.sst = st.sst ∧ out.t_zt = st.t_zt ∧ out.q_zt = st.q_zt ∧
      out.U_zu = st.U_zu ∧ out.V_zu = st.V_zu ∧ out.slp = st.slp) := by
  constructor
  · intro st out h
    obtain ⟨-, rfl⟩ := model_rad_eq_some h
    exact ⟨rfl, rfl, rfl, rfl, rfl, rfl, rfl, rfl⟩
  · intro st out h
    obtain ⟨-, rfl⟩ := model_norad_eq_some h
    exact ⟨rfl, rfl, rfl, rfl, rfl, rfl⟩

/-- Witness for C10: the successful calls on the one-sample zero batches leave every
input sequence as supplied. -/
theorem model_inputs_unmodified_witness :
    radZero1Out.sst = radZero1.sst ∧ noradZero1Out.sst = noradZero1.sst :=
  ⟨((model_inputs_unmodified algorithm.COARE 2 10 5).1 radZero1 radZero1Out
      model_rad_zero1).1,
   ((model_inputs_unmodified algorithm.COARE 2 10 5).2 noradZero1 noradZero1Out
      model_norad_zero1).1⟩

end Aerobulk
